import Mathlib

/-! Shallow embedding of src/main.py: a script that checks a set of
YouTube channels for new uploads and sends a Gmail message for each
newly observed latest video, persisting the last-notified video id per
channel in a JSON file (data.json). External collaborators (the YouTube
Data API and the SMTP server) are modelled as oracles; an exception
raised by a collaborator is modelled as an error value of the oracle. -/

namespace YTG

/-- Kinds of exception an external API call may raise. -/
inductive PyError where
  | unauthorized
  | transient
  | other
deriving DecidableEq, Repr

/-- ContentDetails of one item of a channels().list response: carries
the id of the channel's uploads playlist (main.py line 68). -/
structure ChannelContent where
  uploadsPlaylistId : String
deriving DecidableEq, Repr

/-- Response of youtube.channels().list(part="contentDetails", id=channel_id). -/
structure ChannelsResponse where
  items : List ChannelContent
deriving DecidableEq, Repr

/-- One item of a playlistItems().list response (the snippet fields the
script reads: resourceId.videoId and title, main.py lines 84-85). -/
structure PlaylistEntry where
  videoId : String
  title : String
deriving DecidableEq, Repr

/-- Response of youtube.playlistItems().list(part="snippet", ...). -/
structure PlaylistResponse where
  items : List PlaylistEntry
deriving DecidableEq, Repr

/-- Oracle for the external YouTube Data API: each call either returns
a parsed response or raises an exception. -/
structure YoutubeApi where
  channelsList : String → Except PyError ChannelsResponse
  playlistItemsList : String → Except PyError PlaylistResponse

/-- URL template of main.py line 86. -/
def videoUrl (video_id : String) : String :=
  "https://www.youtube.com/watch?v=" ++ video_id

/-- fetch_latest_video (main.py lines 44-95): resolve the channel to
its uploads playlist, take that playlist's most recent entry, and
return (video id, title, url); on a missing channel, an empty playlist
or any exception, the try/except yields (None, None, None). -/
def fetch_latest_video (youtube : YoutubeApi) (channel_id : String) :
    Option String × Option String × Option String :=
  match youtube.channelsList channel_id with
  | .error _ => (none, none, none)
  | .ok response =>
    match response.items with
    | [] => (none, none, none)
    | c :: _ =>
      match youtube.playlistItemsList c.uploadsPlaylistId with
      | .error _ => (none, none, none)
      | .ok playlist_response =>
        match playlist_response.items with
        | [] => (none, none, none)
        | latest_item :: _ =>
          (some latest_item.videoId, some latest_item.title,
            some (videoUrl latest_item.videoId))

/-- Result of update_json_data: ok (the entry was updated and the file
rewritten) or notFound (the channel id is absent, nothing is written). -/
inductive UpdateResult where
  | ok
  | notFound
deriving DecidableEq, Repr

/-- Registry as persisted in data.json: channel id to latestVideoId,
modelled as an association list (a Python dict preserves insertion
order and has unique keys, uniqueness is carried as a hypothesis where
it matters). -/
abbrev Registry := List (String × String)

/-- update_json_data (main.py lines 98-124): re-read data.json, and if
the channel id is a key, set its latestVideoId and write the file back;
otherwise print a not-found message and leave the file alone. The pair
returned is (which branch ran, the file content afterwards). -/
def update_json_data (file : Registry) (channel_id new_video_id : String) :
    UpdateResult × Registry :=
  if (file.lookup channel_id).isSome then
    (.ok, file.map fun p => if p.1 = channel_id then (p.1, new_video_id) else p)
  else
    (.notFound, file)

/-- State of the single module-level SMTP connection (main.py line 37):
fresh (just connected, TLS not yet negotiated), tls (starttls already
ran on it, connection still open), closed (quit was called). smtplib's
starttls raises on a connection that already negotiated TLS as well as
on one that was closed by quit, so only a fresh connection can carry a
successful send. -/
inductive SmtpState where
  | fresh
  | tls
  | closed
deriving DecidableEq, Repr

/-- Behaviour of the SMTP server for one send attempt on a usable
session: success, login rejected, or a transmission error. -/
inductive SendOutcome where
  | ok
  | authFailed
  | transportFailed
deriving DecidableEq, Repr

/-- post_gmail (main.py lines 127-163): starttls, login, sendmail and
quit on the shared module-level connection, with any exception caught
and reported as a failure message. Returns whether the success message
was printed, paired with the connection state after the call: a failed
login or send leaves the connection open with TLS active (quit is never
reached), a successful send ends in quit. -/
def post_gmail (outcome : SendOutcome) (s : SmtpState) : Bool × SmtpState :=
  match s with
  | .fresh =>
    match outcome with
    | .ok => (true, .closed)
    | .authFailed => (false, .tls)
    | .transportFailed => (false, .tls)
  | .tls => (false, .tls)
  | .closed => (false, .closed)

/-- Per-channel outcome printed by the main loop: a new video was found
and a mail attempted (sendOk records whether post_gmail printed the
success message), no new video, or the fetch failed. -/
inductive Outcome where
  | notified (sendOk : Bool)
  | skipped
  | fetchFailed
deriving DecidableEq, Repr

/-- Python truthiness of the fetched video id (main.py line 187:
`if video_id:` is false both for None and for the empty string). -/
def truthy : Option String → Bool
  | none => false
  | some v => v != ""

/-- Observable state threaded through the main loop. -/
structure RunState where
  file : Registry
  smtp : SmtpState
  sendCount : Nat
  attempts : List (String × String)
  fetched : List String
  outcomes : List (String × Outcome)
deriving DecidableEq, Repr

/-- Body of the for loop of main.py lines 177-207 for one channel, with
`outs` giving the SMTP server behaviour of each successive send
attempt: fetch the latest video; if the fetched id is truthy and equals
the stored one, report no new video; if it differs, call post_gmail and
then unconditionally update_json_data; otherwise report a failed
fetch. -/
def processChannel (youtube : YoutubeApi) (outs : Nat → SendOutcome)
    (st : RunState) (entry : String × String) : RunState :=
  let channel_id := entry.1
  let stored_video_id := entry.2
  let r := fetch_latest_video youtube channel_id
  if truthy r.1 then
    if r.1.getD "" = stored_video_id then
      { st with fetched := st.fetched ++ [channel_id],
                outcomes := st.outcomes ++ [(channel_id, .skipped)] }
    else
      { st with fetched := st.fetched ++ [channel_id],
                smtp := (post_gmail (outs st.sendCount) st.smtp).2,
                sendCount := st.sendCount + 1,
                attempts := st.attempts ++ [(channel_id, r.1.getD "")],
                file := (update_json_data st.file channel_id (r.1.getD "")).2,
                outcomes := st.outcomes ++
                  [(channel_id, .notified (post_gmail (outs st.sendCount) st.smtp).1)] }
  else
    { st with fetched := st.fetched ++ [channel_id],
              outcomes := st.outcomes ++ [(channel_id, .fetchFailed)] }

/-- State at the start of the __main__ block: data.json was just read
into the snapshot being iterated, the module-level SMTP connection is
fresh, nothing was fetched, sent or reported yet. -/
def initState (snapshot : Registry) : RunState :=
  { file := snapshot, smtp := .fresh, sendCount := 0,
    attempts := [], fetched := [], outcomes := [] }

/-- The __main__ block (main.py lines 168-207): load data.json and run
the loop body over each of its entries in order. -/
def runMain (youtube : YoutubeApi) (outs : Nat → SendOutcome)
    (snapshot : Registry) : RunState :=
  snapshot.foldl (processChannel youtube outs) (initState snapshot)

/-- Pointwise form of the rewrite a dict assignment performs on the
entry list: the entry under the assigned key gets the new value, every
other entry is untouched. -/
def setKey (c v : String) (p : String × String) : String × String :=
  if p.1 = c then (p.1, v) else p

/-- Video id the loop reads for a channel once the fetch has been
performed (the empty string standing for a falsy fetch result). -/
def fetchedId (youtube : YoutubeApi) (c : String) : String :=
  (fetch_latest_video youtube c).1.getD ""

/-- Decision of main.py lines 187-189 for one snapshot entry, as a
Boolean: the fetch returned a truthy video id that differs from the
stored one. -/
def notifyB (youtube : YoutubeApi) (e : String × String) : Bool :=
  truthy (fetch_latest_video youtube e.1).1 && (fetchedId youtube e.1 != e.2)

/-- Effect of one loop iteration on the content of data.json. -/
def fileStep (youtube : YoutubeApi) (file : Registry) (e : String × String) : Registry :=
  if notifyB youtube e then (update_json_data file e.1 (fetchedId youtube e.1)).2 else file

/-- Whether some entry of the snapshot with the given key triggers the
notify branch during the run. -/
def anyNotify (youtube : YoutubeApi) (l : Registry) (c : String) : Bool :=
  l.any fun e => e.1 == c && notifyB youtube e

/-- Net per-entry effect of a whole run on the initial file: keys some
snapshot entry notifies for are rewritten to their fetched video id,
all other entries stay. -/
def settleKey (youtube : YoutubeApi) (l : Registry) (p : String × String) : String × String :=
  if anyNotify youtube l p.1 then (p.1, fetchedId youtube p.1) else p

/-- Outcome the loop reports for one snapshot entry, given the state at
the start of the iteration. -/
def stepOutcome (youtube : YoutubeApi) (outs : Nat → SendOutcome)
    (st : RunState) (e : String × String) : Outcome :=
  if truthy (fetch_latest_video youtube e.1).1 then
    if fetchedId youtube e.1 = e.2 then .skipped
    else .notified (post_gmail (outs st.sendCount) st.smtp).1
  else .fetchFailed

/-- Number of channels for which the run printed the mail-sent success
message. -/
def successCount (st : RunState) : Nat :=
  st.outcomes.countP fun p => decide (p.2 = Outcome.notified true)

/-- The three non-fatal fetch failures of the spec as they arise inside
fetch_latest_video: the channel lookup returns an empty item list
(NotFound), a transient exception is raised by either API call
(Transient), or the uploads playlist is empty (NoItems). -/
def nonFatalFetchFailure (youtube : YoutubeApi) (c : String) : Prop :=
  (∃ r, youtube.channelsList c = .ok r ∧ r.items = [])
  ∨ youtube.channelsList c = .error .transient
  ∨ (∃ r hd tl, youtube.channelsList c = .ok r ∧ r.items = hd :: tl ∧
      youtube.playlistItemsList hd.uploadsPlaylistId = .error .transient)
  ∨ (∃ r hd tl pr, youtube.channelsList c = .ok r ∧ r.items = hd :: tl ∧
      youtube.playlistItemsList hd.uploadsPlaylistId = .ok pr ∧ pr.items = [])

/-- JSON values as far as data.json uses them: strings and objects. -/
inductive Json where
  | str : String → Json
  | obj : List (String × Json) → Json

/-- Reads one registry entry value: exactly an object with the single
field latestVideoId holding a string, the data.json format documented
at main.py lines 26 and 173. -/
def entryVideoId : Json → Option String
  | .obj [(k, .str v)] => if k = "latestVideoId" then some v else none
  | _ => none

/-- Parses the entries of the top-level data.json object in order. -/
def loadEntries : List (String × Json) → Option Registry
  | [] => some []
  | (c, j) :: rest =>
    match entryVideoId j, loadEntries rest with
    | some v, some r => some ((c, v) :: r)
    | _, _ => none

/-- json.load of data.json into the in-memory registry (main.py lines
171-174), demanding the documented shape. -/
def loadAll : Json → Option Registry
  | .obj l => loadEntries l
  | _ => none

/-- json.dump of the in-memory registry back to JSON (main.py lines
116-117); a Python dict serializes its entries in insertion order. -/
def storeAll (r : Registry) : Json :=
  .obj (r.map fun p => (p.1, .obj [("latestVideoId", .str p.2)]))

/-- Oracle for a single channel whose uploads playlist has latest video
vid2, used at concrete inputs. -/
def ytOne : YoutubeApi where
  channelsList := fun _ => .ok { items := [{ uploadsPlaylistId := "pl1" }] }
  playlistItemsList := fun _ => .ok { items := [{ videoId := "vid2", title := "New Upload" }] }

/-- Oracle on which the first channel's metadata lookup raises an
authorization exception while every other channel fetches normally. -/
def ytUnauth : YoutubeApi where
  channelsList := fun cid =>
    if cid = "c1" then .error .unauthorized
    else .ok { items := [{ uploadsPlaylistId := "p2" }] }
  playlistItemsList := fun _ => .ok { items := [{ videoId := "v2", title := "t2" }] }

/-- Oracle on which every channel has a fresh upload named after its
own uploads playlist. -/
def ytTwo : YoutubeApi where
  channelsList := fun cid => .ok { items := [{ uploadsPlaylistId := cid }] }
  playlistItemsList := fun pid => .ok { items := [{ videoId := pid ++ "new", title := "T" }] }

/-- Oracle on which channel c1 is unknown to the API (empty channel
item list) while every other channel fetches normally. -/
def ytNotFound : YoutubeApi where
  channelsList := fun cid =>
    if cid = "c1" then .ok { items := [] }
    else .ok { items := [{ uploadsPlaylistId := cid }] }
  playlistItemsList := fun pid => .ok { items := [{ videoId := pid ++ "new", title := "T" }] }

/-- One loop iteration records exactly one fetch attempt, for its own
channel. -/
theorem processChannel_fetched (youtube : YoutubeApi) (outs : Nat → SendOutcome)
    (st : RunState) (e : String × String) :
    (processChannel youtube outs st e).fetched = st.fetched ++ [e.1] := by
  simp only [processChannel]
  split
  · split <;> rfl
  · rfl

/-- One loop iteration changes data.json exactly as fileStep says. -/
theorem processChannel_file (youtube : YoutubeApi) (outs : Nat → SendOutcome)
    (st : RunState) (e : String × String) :
    (processChannel youtube outs st e).file = fileStep youtube st.file e := by
  simp only [processChannel, fileStep, notifyB, fetchedId]
  cases ht : truthy (fetch_latest_video youtube e.1).1 with
  | false => simp [ht]
  | true =>
    by_cases hv : (fetch_latest_video youtube e.1).1.getD "" = e.2
    · simp [ht, hv]
    · simp [ht, hv]

/-- One loop iteration attempts a mail exactly when the notify branch
runs, for the fetched video id. -/
theorem processChannel_attempts (youtube : YoutubeApi) (outs : Nat → SendOutcome)
    (st : RunState) (e : String × String) :
    (processChannel youtube outs st e).attempts =
      if notifyB youtube e then st.attempts ++ [(e.1, fetchedId youtube e.1)]
      else st.attempts := by
  simp only [processChannel, notifyB, fetchedId]
  cases ht : truthy (fetch_latest_video youtube e.1).1 with
  | false => simp [ht]
  | true =>
    by_cases hv : (fetch_latest_video youtube e.1).1.getD "" = e.2
    · simp [ht, hv]
    · simp [ht, hv]

/-- One loop iteration appends exactly one report line, for its own
channel. -/
theorem processChannel_outcomes (youtube : YoutubeApi) (outs : Nat → SendOutcome)
    (st : RunState) (e : String × String) :
    (processChannel youtube outs st e).outcomes =
      st.outcomes ++ [(e.1, stepOutcome youtube outs st e)] := by
  simp only [processChannel, stepOutcome, fetchedId]
  cases ht : truthy (fetch_latest_video youtube e.1).1 with
  | false => simp [ht]
  | true =>
    by_cases hv : (fetch_latest_video youtube e.1).1.getD "" = e.2
    · simp [ht, hv]
    · simp [ht, hv]

/-- One loop iteration moves the shared SMTP connection through
post_gmail exactly when the notify branch runs. -/
theorem processChannel_smtp (youtube : YoutubeApi) (outs : Nat → SendOutcome)
    (st : RunState) (e : String × String) :
    (processChannel youtube outs st e).smtp =
      if notifyB youtube e then (post_gmail (outs st.sendCount) st.smtp).2
      else st.smtp := by
  simp only [processChannel, notifyB, fetchedId]
  rcases Bool.eq_false_or_eq_true (truthy (fetch_latest_video youtube e.1).1) with ht | ht <;>
    simp [ht] <;> split <;> simp_all

/-- Running the loop over a list of entries appends their channels, in
order, to the fetch trace. -/
theorem foldl_fetched (youtube : YoutubeApi) (outs : Nat → SendOutcome)
    (l : Registry) (st : RunState) :
    (l.foldl (processChannel youtube outs) st).fetched = st.fetched ++ l.map Prod.fst := by
  induction l generalizing st with
  | nil => simp
  | cons hd tl ih =>
    rw [List.foldl_cons, ih, processChannel_fetched]
    simp

/-- Running the loop over a list of entries reports on exactly those
channels, in order. -/
theorem foldl_outcome_keys (youtube : YoutubeApi) (outs : Nat → SendOutcome)
    (l : Registry) (st : RunState) :
    (l.foldl (processChannel youtube outs) st).outcomes.map Prod.fst
      = st.outcomes.map Prod.fst ++ l.map Prod.fst := by
  induction l generalizing st with
  | nil => simp
  | cons hd tl ih =>
    rw [List.foldl_cons, ih, processChannel_outcomes]
    simp

/-- The content of data.json after the loop is the fold of fileStep. -/
theorem foldl_file (youtube : YoutubeApi) (outs : Nat → SendOutcome)
    (l : Registry) (st : RunState) :
    (l.foldl (processChannel youtube outs) st).file = l.foldl (fileStep youtube) st.file := by
  induction l generalizing st with
  | nil => rfl
  | cons hd tl ih =>
    rw [List.foldl_cons, List.foldl_cons, ih, processChannel_file]

/-- Lookup on a cons, with the head destructed and the test as an if. -/
theorem lookup_cons_pair (k b c : String) (tl : Registry) :
    List.lookup c ((k, b) :: tl) = if k = c then some b else List.lookup c tl := by
  by_cases h : k = c
  · subst h
    simp [List.lookup]
  · simp [List.lookup, beq_false_of_ne (Ne.symm h), h]

/-- setKey rewrites the entry under its key. -/
theorem setKey_eq (c v b : String) : setKey c v (c, b) = (c, v) := by
  simp [setKey]

/-- setKey leaves an entry under any other key alone. -/
theorem setKey_ne (c v k b : String) (h : k ≠ c) : setKey c v (k, b) = (k, b) := by
  simp [setKey, h]

/-- Rewriting an absent key over a file is the identity. -/
theorem map_update_of_lookup_none (f : Registry) (c v : String) (h : f.lookup c = none) :
    f.map (setKey c v) = f := by
  induction f with
  | nil => rfl
  | cons hd tl ih =>
    obtain ⟨k, b⟩ := hd
    by_cases hk : k = c
    · subst hk
      simp [List.lookup] at h
    · simp only [List.lookup, beq_false_of_ne (Ne.symm hk)] at h
      rw [List.map_cons, setKey_ne _ _ _ _ hk, ih h]

/-- The file produced by update_json_data, in both branches, is the
keywise rewrite of the old one (when the key is absent the rewrite
touches nothing). -/
theorem update_json_data_snd (f : Registry) (c v : String) :
    (update_json_data f c v).2 = f.map (setKey c v) := by
  unfold update_json_data
  split
  · rfl
  · rename_i h
    exact (map_update_of_lookup_none f c v (Option.not_isSome_iff_eq_none.mp h)).symm

/-- Looking up the rewritten key after update. -/
theorem lookup_map_update_self (f : Registry) (c v : String) :
    (f.map (setKey c v)).lookup c = if (f.lookup c).isSome then some v else none := by
  induction f with
  | nil => rfl
  | cons hd tl ih =>
    obtain ⟨k, b⟩ := hd
    rw [List.map_cons]
    by_cases hk : k = c
    · subst hk
      rw [setKey_eq, lookup_cons_pair, lookup_cons_pair, if_pos rfl, if_pos rfl]
      simp
    · rw [setKey_ne _ _ _ _ hk, lookup_cons_pair, lookup_cons_pair, if_neg hk, if_neg hk, ih]

/-- Looking up any other key after update is unchanged. -/
theorem lookup_map_update_other (f : Registry) (c v x : String) (hx : x ≠ c) :
    (f.map (setKey c v)).lookup x = f.lookup x := by
  induction f with
  | nil => rfl
  | cons hd tl ih =>
    obtain ⟨k, b⟩ := hd
    rw [List.map_cons]
    by_cases hk : k = c
    · subst hk
      rw [setKey_eq, lookup_cons_pair, lookup_cons_pair, if_neg hx.symm, if_neg hx.symm, ih]
    · rw [setKey_ne _ _ _ _ hk, lookup_cons_pair, lookup_cons_pair, ih]

/-- anyNotify on a cons splits into the head test and the tail. -/
theorem anyNotify_cons (youtube : YoutubeApi) (hd : String × String)
    (tl : Registry) (x : String) :
    anyNotify youtube (hd :: tl) x
      = ((hd.1 == x && notifyB youtube hd) || anyNotify youtube tl x) := rfl

/-- Folding fileStep over the snapshot rewrites, in the initial file,
exactly the keys some snapshot entry notifies for, to the fetched video
id of that key. -/
theorem foldl_fileStep_eq_map (youtube : YoutubeApi) (l : Registry) (f : Registry) :
    l.foldl (fileStep youtube) f = f.map (settleKey youtube l) := by
  induction l generalizing f with
  | nil =>
    have : ∀ p ∈ f, settleKey youtube [] p = p := by
      intro p _
      simp [settleKey, anyNotify]
    simp only [List.foldl_nil]
    exact ((List.map_congr_left this).trans f.map_id).symm
  | cons hd tl ih =>
    rw [List.foldl_cons, ih]
    by_cases hn : notifyB youtube hd = true
    · rw [fileStep, if_pos hn, update_json_data_snd, List.map_map]
      refine List.map_congr_left ?_
      intro p _
      obtain ⟨x, s⟩ := p
      show settleKey youtube tl (setKey hd.1 (fetchedId youtube hd.1) (x, s))
        = settleKey youtube (hd :: tl) (x, s)
      by_cases hp : x = hd.1
      · subst hp
        rw [setKey_eq]
        unfold settleKey
        rw [anyNotify_cons]
        simp only [hn, beq_self_eq_true, Bool.and_true, Bool.true_or, if_true]
        split <;> rfl
      · rw [setKey_ne _ _ _ _ hp]
        unfold settleKey
        rw [anyNotify_cons]
        have hb : (hd.1 == x) = false := beq_false_of_ne fun e => hp e.symm
        rw [hb]
        simp
    · rw [fileStep, if_neg hn]
      refine List.map_congr_left ?_
      intro p _
      unfold settleKey
      rw [anyNotify_cons, Bool.eq_false_iff.mpr hn]
      simp

/-- On a connection that is not fresh, post_gmail reports failure and
leaves the connection as it was, whatever the server would do. -/
theorem post_gmail_of_ne_fresh (o : SendOutcome) (s : SmtpState) (h : s ≠ .fresh) :
    post_gmail o s = (false, s) := by
  cases s
  · exact absurd rfl h
  · rfl
  · rfl

/-- A transmission error is always reported as a failure. -/
theorem post_gmail_transport_fst (s : SmtpState) :
    (post_gmail .transportFailed s).1 = false := by
  cases s <;> rfl

/-- post_gmail never hands back a fresh connection. -/
theorem post_gmail_snd_ne_fresh (o : SendOutcome) (s : SmtpState) :
    (post_gmail o s).2 ≠ .fresh := by
  cases s <;> cases o <;> simp [post_gmail]

/-- A non-fatal fetch failure makes fetch_latest_video return the None
triple. -/
theorem fetch_of_nonFatal (youtube : YoutubeApi) (c : String)
    (h : nonFatalFetchFailure youtube c) :
    fetch_latest_video youtube c = (none, none, none) := by
  rcases h with ⟨r, hr, hi⟩ | hr | ⟨r, hd, tl, hr, hi, hp⟩ | ⟨r, hd, tl, pr, hr, hi, hp, hq⟩
  · simp [fetch_latest_video, hr, hi]
  · simp [fetch_latest_video, hr]
  · simp [fetch_latest_video, hr, hi, hp]
  · simp [fetch_latest_video, hr, hi, hp, hq]

/-- If no entry of the remaining snapshot decides to notify, the loop
attempts no mail over it. -/
theorem foldl_attempts_of_settled (youtube : YoutubeApi) (outs : Nat → SendOutcome)
    (l : Registry) (st : RunState)
    (h : ∀ e ∈ l, notifyB youtube e = false) :
    (l.foldl (processChannel youtube outs) st).attempts = st.attempts := by
  induction l generalizing st with
  | nil => rfl
  | cons hd tl ih =>
    rw [List.foldl_cons, ih _ fun e he => h e (List.mem_cons_of_mem _ he),
      processChannel_attempts, h hd (List.mem_cons_self _ _)]
    simp

/-- Lookup skips a prefix that does not hold the key. -/
theorem lookup_append_of_not_mem (l l' : Registry) (x : String)
    (h : x ∉ l.map Prod.fst) :
    (l ++ l').lookup x = l'.lookup x := by
  induction l with
  | nil => rfl
  | cons hd tl ih =>
    obtain ⟨k, b⟩ := hd
    simp only [List.map_cons, List.mem_cons] at h
    push_neg at h
    rw [List.cons_append, lookup_cons_pair, if_neg fun e => h.1 e.symm, ih h.2]

/-- The success message of one loop iteration, as a count: one exactly
when the notify branch ran and post_gmail reported success. -/
theorem successCount_processChannel (youtube : YoutubeApi) (outs : Nat → SendOutcome)
    (st : RunState) (e : String × String) :
    successCount (processChannel youtube outs st e) =
      successCount st +
        (if notifyB youtube e = true ∧ (post_gmail (outs st.sendCount) st.smtp).1 = true
         then 1 else 0) := by
  rw [successCount, processChannel_outcomes, List.countP_append, successCount]
  congr 1
  rw [stepOutcome, notifyB]
  rcases Bool.eq_false_or_eq_true (truthy (fetch_latest_video youtube e.1).1) with ht | ht <;>
    by_cases hv : fetchedId youtube e.1 = e.2 <;>
      rcases Bool.eq_false_or_eq_true (post_gmail (outs st.sendCount) st.smtp).1 with hp | hp <;>
        simp [ht, hv, hp, List.countP_cons]

/-- Invariant carried through the loop: once the shared connection is
no longer fresh no further success is possible, so a run prints at most
one mail-sent success. -/
theorem run_success_invariant (youtube : YoutubeApi) (outs : Nat → SendOutcome)
    (l : Registry) (st : RunState)
    (h1 : st.smtp = .fresh → successCount st = 0) (h2 : successCount st ≤ 1) :
    successCount (l.foldl (processChannel youtube outs) st) ≤ 1 := by
  induction l generalizing st with
  | nil => exact h2
  | cons hd tl ih =>
    rw [List.foldl_cons]
    refine ih _ ?_ ?_
    · intro hfresh
      rw [processChannel_smtp] at hfresh
      rw [successCount_processChannel]
      split at hfresh
      · exact absurd hfresh (post_gmail_snd_ne_fresh _ _)
      · rename_i hn
        rw [if_neg fun hc => hn hc.1]
        exact h1 hfresh
    · rw [successCount_processChannel]
      by_cases hn : notifyB youtube hd = true
      · by_cases hf : st.smtp = .fresh
        · rw [h1 hf]
          split <;> omega
        · rw [post_gmail_of_ne_fresh _ _ hf]
          rw [if_neg fun hc => by simpa using hc.2]
          omega
      · rw [if_neg fun hc => hn hc.1]
        omega

/-- A value accepted by entryVideoId is exactly the one-field object. -/
theorem entryVideoId_inv (j : Json) (v : String) (h : entryVideoId j = some v) :
    j = Json.obj [("latestVideoId", Json.str v)] := by
  unfold entryVideoId at h
  split at h
  · rename_i k w
    split at h
    · rename_i hk
      cases h
      rw [hk]
    · exact Option.noConfusion h
  · exact Option.noConfusion h

/-- Parsing the data.json entries and rebuilding them is the identity
on the entry list. -/
theorem loadEntries_store (l : List (String × Json)) (r : Registry)
    (h : loadEntries l = some r) :
    r.map (fun p => (p.1, Json.obj [("latestVideoId", Json.str p.2)])) = l := by
  induction l generalizing r with
  | nil =>
    rw [loadEntries] at h
    cases h
    rfl
  | cons hd tl ih =>
    obtain ⟨c, j⟩ := hd
    rw [loadEntries] at h
    cases he : entryVideoId j with
    | none =>
      rw [he] at h
      exact Option.noConfusion h
    | some v =>
      rw [he] at h
      cases ht : loadEntries tl with
      | none =>
        rw [ht] at h
        exact Option.noConfusion h
      | some r0 =>
        rw [ht] at h
        cases h
        rw [List.map_cons, ih r0 ht, (entryVideoId_inv j v he).symm]

/-- C10: for every channel id and every behavior of the external API
(including any raised exception), fetch_latest_video returns without
raising (it is a total function of the oracle) and its result is
all-or-nothing: either all three components are present with the url
equal to the fixed template applied to the video id, or all three are
None. -/
theorem fetch_all_or_nothing (youtube : YoutubeApi) (channel_id : String) :
    fetch_latest_video youtube channel_id = (none, none, none)
    ∨ ∃ v t, fetch_latest_video youtube channel_id
        = (some v, some t, some (videoUrl v)) := by
  rcases hc : youtube.channelsList channel_id with e | response
  · left; simp [fetch_latest_video, hc]
  · rcases hi : response.items with _ | ⟨c, rest⟩
    · left; simp [fetch_latest_video, hc, hi]
    · rcases hp : youtube.playlistItemsList c.uploadsPlaylistId with e | pr
      · left; simp [fetch_latest_video, hc, hi, hp]
      · rcases hq : pr.items with _ | ⟨it, rest2⟩
        · left; simp [fetch_latest_video, hc, hi, hp, hq]
        · right
          exact ⟨it.videoId, it.title, by simp [fetch_latest_video, hc, hi, hp, hq]⟩

/-- C7: for every persisted registry state containing a given channel
id, update_json_data runs its ok branch, sets that entry's
latestVideoId to the new id in the persisted file, and leaves the entry
of every other channel id in the persisted mapping unchanged. -/
theorem update_present (file : Registry) (c newId : String)
    (hc : (file.lookup c).isSome = true) :
    (update_json_data file c newId).1 = UpdateResult.ok
    ∧ (update_json_data file c newId).2.lookup c = some newId
    ∧ ∀ x, x ≠ c → (update_json_data file c newId).2.lookup x = file.lookup x := by
  refine ⟨?_, ?_, ?_⟩
  · unfold update_json_data
    rw [if_pos hc]
  · rw [update_json_data_snd, lookup_map_update_self, if_pos hc]
  · intro x hx
    rw [update_json_data_snd, lookup_map_update_other _ _ _ _ hx]

/-- C7 witness: a concrete two-entry file, updating UCabc to vid2
leaves UCdef at vid9. -/
theorem update_present_w :
    ((([("UCabc", "vid1"), ("UCdef", "vid9")] : Registry).lookup "UCabc").isSome = true)
    ∧ (update_json_data [("UCabc", "vid1"), ("UCdef", "vid9")] "UCabc" "vid2").1
        = UpdateResult.ok
    ∧ (update_json_data [("UCabc", "vid1"), ("UCdef", "vid9")] "UCabc" "vid2").2.lookup "UCabc"
        = some "vid2"
    ∧ (update_json_data [("UCabc", "vid1"), ("UCdef", "vid9")] "UCabc" "vid2").2.lookup "UCdef"
        = ([("UCabc", "vid1"), ("UCdef", "vid9")] : Registry).lookup "UCdef" :=
  ⟨by decide, (update_present _ _ _ (by decide)).1, (update_present _ _ _ (by decide)).2.1,
    (update_present _ _ _ (by decide)).2.2 "UCdef" (by decide)⟩

/-- C8: for every persisted registry state not containing a given
channel id, update_json_data reports the not-found branch and returns
the persisted state unchanged: no write occurs. -/
theorem update_absent (file : Registry) (c newId : String)
    (hc : file.lookup c = none) :
    update_json_data file c newId = (UpdateResult.notFound, file) := by
  unfold update_json_data
  rw [if_neg (by simp [hc])]

/-- C8 witness: updating a key absent from a concrete one-entry file
reports notFound and leaves the file untouched. -/
theorem update_absent_w :
    (([("UCabc", "vid1")] : Registry).lookup "UCzzz" = none)
    ∧ update_json_data [("UCabc", "vid1")] "UCzzz" "vid2"
        = (UpdateResult.notFound, [("UCabc", "vid1")]) :=
  ⟨by decide, update_absent _ _ _ (by decide)⟩

/-- C9: every well-formed persisted data.json content (an object
mapping channel ids to one-field objects holding a latestVideoId
string, which is exactly what loadAll accepts) is reproduced exactly by
serializing the registry it loads to: load then store is the
identity on well-formed content, hence in particular a semantic
round-trip. -/
theorem load_store_roundtrip (j : Json) (r : Registry) (h : loadAll j = some r) :
    storeAll r = j := by
  cases j with
  | str s => exact Option.noConfusion h
  | obj l =>
    rw [storeAll, loadEntries_store l r h]

/-- C9 witness: a concrete one-channel data.json round-trips. -/
theorem load_store_roundtrip_w :
    loadAll (Json.obj [("UCabc", Json.obj [("latestVideoId", Json.str "vid1")])])
      = some [("UCabc", "vid1")]
    ∧ storeAll [("UCabc", "vid1")]
      = Json.obj [("UCabc", Json.obj [("latestVideoId", Json.str "vid1")])] :=
  ⟨rfl, load_store_roundtrip _ _ rfl⟩

/-- C3: for every stored identifier and every successfully fetched
latest item (one the loop accepts as fetched: a truthy, i.e. nonempty,
video id, main.py line 187), the loop reports the notify outcome
exactly when the fetched id differs from the stored one and the skip
outcome exactly when they are equal; in particular a stored empty
string (never notified) always yields notify. -/
theorem decide_notify_iff (youtube : YoutubeApi) (outs : Nat → SendOutcome)
    (st : RunState) (c s vid t u : String)
    (hfetch : fetch_latest_video youtube c = (some vid, some t, some u))
    (hvid : vid ≠ "") :
    (processChannel youtube outs st (c, s)).outcomes
      = st.outcomes ++ [(c, if vid = s then Outcome.skipped
          else Outcome.notified (post_gmail (outs st.sendCount) st.smtp).1)]
    ∧ (s = "" → (processChannel youtube outs st (c, s)).outcomes
      = st.outcomes ++ [(c, Outcome.notified (post_gmail (outs st.sendCount) st.smtp).1)]) := by
  have hstep : stepOutcome youtube outs st (c, s)
      = if vid = s then Outcome.skipped
        else Outcome.notified (post_gmail (outs st.sendCount) st.smtp).1 := by
    rw [stepOutcome, fetchedId]
    simp [hfetch, truthy, hvid]
  refine ⟨?_, ?_⟩
  · rw [processChannel_outcomes, hstep]
  · intro hs
    rw [processChannel_outcomes, hstep, if_neg (hs ▸ hvid)]

/-- C3 witness: on a concrete oracle fetching vid2, the stored empty
string notifies, evaluated at the start state of a one-channel run. -/
theorem decide_notify_iff_w :
    fetch_latest_video ytOne "UCabc"
      = (some "vid2", some "New Upload", some (videoUrl "vid2"))
    ∧ ("vid2" : String) ≠ ""
    ∧ (processChannel ytOne (fun _ => SendOutcome.ok) (initState [("UCabc", "")])
        ("UCabc", "")).outcomes = [("UCabc", Outcome.notified true)] :=
  ⟨rfl, by decide,
    (decide_notify_iff ytOne (fun _ => SendOutcome.ok) (initState [("UCabc", "")])
      "UCabc" "" "vid2" "New Upload" (videoUrl "vid2") rfl (by decide)).2 rfl⟩

/-- C1 counterexample: one tracked channel stored at vid1, the fetch
finds vid2 and the SMTP server fails the transmission; the run reports
the send failure, yet data.json afterwards stores vid2 for the channel
instead of keeping vid1, so the item would not be re-detected as new on
the next run. -/
theorem send_fail_updates_cx :
    (runMain ytOne (fun _ => SendOutcome.transportFailed) [("UCabc", "vid1")]).outcomes
      = [("UCabc", Outcome.notified false)]
    ∧ (runMain ytOne (fun _ => SendOutcome.transportFailed) [("UCabc", "vid1")]).file
      = [("UCabc", "vid2")] :=
  ⟨rfl, rfl⟩

/-- C1 amended: when the detector decides notify and the send fails
with a transmission error, the loop does report the failure, but
post_gmail swallows the exception and update_json_data still runs
unconditionally: the registry entry for the source is set to the
fetched item id, so the same item is NOT detected as new on the next
run. -/
theorem send_fail_reported_but_updated (youtube : YoutubeApi) (outs : Nat → SendOutcome)
    (st : RunState) (c s vid t u : String)
    (hfetch : fetch_latest_video youtube c = (some vid, some t, some u))
    (hvid : vid ≠ "") (hdiff : vid ≠ s)
    (hout : outs st.sendCount = SendOutcome.transportFailed) :
    (processChannel youtube outs st (c, s)).outcomes
      = st.outcomes ++ [(c, Outcome.notified false)]
    ∧ (processChannel youtube outs st (c, s)).file = (update_json_data st.file c vid).2
    ∧ ((st.file.lookup c).isSome = true →
        (processChannel youtube outs st (c, s)).file.lookup c = some vid) := by
  have hid : fetchedId youtube c = vid := by
    rw [fetchedId, hfetch]
    rfl
  have hnot : notifyB youtube (c, s) = true := by
    rw [notifyB]
    simp [hfetch, truthy, hvid, hid, hdiff]
  have hfile : (processChannel youtube outs st (c, s)).file
      = (update_json_data st.file c vid).2 := by
    rw [processChannel_file, fileStep, if_pos hnot]
    simp [hid]
  refine ⟨?_, hfile, ?_⟩
  · rw [processChannel_outcomes, stepOutcome, fetchedId]
    have ht : truthy (fetch_latest_video youtube (c, s).1).1 = true := by
      simp [hfetch, truthy, hvid]
    rw [if_pos ht]
    rw [if_neg (by simpa [hfetch] using hdiff)]
    rw [hout, post_gmail_transport_fst]
  · intro hin
    rw [hfile, update_json_data_snd, lookup_map_update_self, if_pos hin]

/-- C1 amended witness: at the concrete failing-send run of the
counterexample, starting from the initial state of a one-channel
snapshot. -/
theorem send_fail_reported_but_updated_w :
    fetch_latest_video ytOne "UCabc"
      = (some "vid2", some "New Upload", some (videoUrl "vid2"))
    ∧ ("vid2" : String) ≠ "" ∧ ("vid2" : String) ≠ "vid1"
    ∧ (processChannel ytOne (fun _ => SendOutcome.transportFailed)
        (initState [("UCabc", "vid1")]) ("UCabc", "vid1")).file.lookup "UCabc"
      = some "vid2" :=
  ⟨rfl, by decide, by decide,
    (send_fail_reported_but_updated ytOne (fun _ => SendOutcome.transportFailed)
      (initState [("UCabc", "vid1")]) "UCabc" "vid1" "vid2" "New Upload" (videoUrl "vid2")
      rfl (by decide) (by decide) rfl).2.2 (by decide)⟩

/-- C2 counterexample: the first source's fetch raises Unauthorized;
the run does not abort: the second source's fetch is still attempted
and the second source is fully processed (it even receives the one
available mail). -/
theorem unauthorized_no_abort_cx :
    (runMain ytUnauth (fun _ => SendOutcome.ok) [("c1", "a"), ("c2", "b")]).fetched
      = ["c1", "c2"]
    ∧ (runMain ytUnauth (fun _ => SendOutcome.ok) [("c1", "a"), ("c2", "b")]).outcomes
      = [("c1", Outcome.fetchFailed), ("c2", Outcome.notified true)] :=
  ⟨rfl, rfl⟩

/-- C2 amended: the run never aborts: every fetch-side error, an
authorization failure included, is caught inside fetch_latest_video
and handled like any other fetch failure, and every source of the
snapshot has its fetch attempted in every run, whatever the API and
SMTP oracles do. -/
theorem run_fetches_every_source (youtube : YoutubeApi) (outs : Nat → SendOutcome)
    (snapshot : Registry) :
    (runMain youtube outs snapshot).fetched = snapshot.map Prod.fst := by
  rw [runMain, foldl_fetched]
  rfl

/-- C5 counterexample: two sources both due a notification and an SMTP
server that would accept every send; the first send succeeds and quits
the shared module-level session, so the second source's send fails:
the session state used by the second send is exactly the one the first
send left behind, not a fresh one. -/
theorem shared_session_cx :
    (runMain ytTwo (fun _ => SendOutcome.ok) [("c1", "old1"), ("c2", "old2")]).outcomes
      = [("c1", Outcome.notified true), ("c2", Outcome.notified false)] := rfl

/-- C5 amended: sends do not each get a session of their own: all of
them run starttls, login, sendmail and quit on the single module-level
SMTP connection, whose state carries over from one source's send to the
next; since a successful send quits the shared connection and a failed
one leaves TLS active on it, at most one send per run can ever report
success. -/
theorem at_most_one_mail (youtube : YoutubeApi) (outs : Nat → SendOutcome)
    (snapshot : Registry) :
    successCount (runMain youtube outs snapshot) ≤ 1 := by
  have h0 : successCount (initState snapshot) = 0 := rfl
  exact run_success_invariant youtube outs snapshot (initState snapshot)
    (fun _ => h0) (by rw [h0]; exact Nat.zero_le 1)

/-- C4: a source whose fetch fails non-fatally (unknown channel, empty
uploads playlist, or a transient error) keeps its registry entry
untouched for the whole run, and every source of the snapshot,
including all subsequent ones, is still processed and reported. -/
theorem nonfatal_fetch_isolated (youtube : YoutubeApi) (outs : Nat → SendOutcome)
    (pre post : Registry) (c s : String)
    (hnodup : ((pre ++ (c, s) :: post).map Prod.fst).Nodup)
    (hfail : nonFatalFetchFailure youtube c) :
    (runMain youtube outs (pre ++ (c, s) :: post)).file.lookup c = some s
    ∧ (runMain youtube outs (pre ++ (c, s) :: post)).outcomes.map Prod.fst
      = (pre ++ (c, s) :: post).map Prod.fst := by
  have hfetch := fetch_of_nonFatal youtube c hfail
  rw [List.map_append, List.map_cons] at hnodup
  have hsplit := List.nodup_append.mp hnodup
  have hcpre : c ∉ pre.map Prod.fst := fun hm => hsplit.2.2 hm (List.mem_cons_self _ _)
  have hcpost : c ∉ post.map Prod.fst := (List.nodup_cons.mp hsplit.2.1).1
  constructor
  · rw [runMain, foldl_file, foldl_fileStep_eq_map]
    have hAny : anyNotify youtube (pre ++ (c, s) :: post) c = false := by
      rw [anyNotify, List.any_eq_false]
      intro e he
      rcases List.mem_append.mp he with hpre | hcons
      · have hm : e.1 ∈ pre.map Prod.fst := List.mem_map_of_mem _ hpre
        have hne : (e.1 == c) = false := beq_false_of_ne fun h => hcpre (h ▸ hm)
        simp [hne]
      · rcases List.mem_cons.mp hcons with rfl | hpost
        · have hnb : notifyB youtube (c, s) = false := by
            rw [notifyB]
            simp [hfetch, truthy]
          simp [hnb]
        · have hm : e.1 ∈ post.map Prod.fst := List.mem_map_of_mem _ hpost
          have hne : (e.1 == c) = false := beq_false_of_ne fun h => hcpost (h ▸ hm)
          simp [hne]
    show ((pre ++ (c, s) :: post).map
      (settleKey youtube (pre ++ (c, s) :: post))).lookup c = some s
    rw [List.map_append, List.map_cons]
    rw [lookup_append_of_not_mem]
    · have hsk : settleKey youtube (pre ++ (c, s) :: post) (c, s) = (c, s) := by
        unfold settleKey
        rw [hAny]
        simp
      rw [hsk, lookup_cons_pair, if_pos rfl]
    · rw [List.map_map]
      have hfst : ∀ p ∈ pre,
          (Prod.fst ∘ settleKey youtube (pre ++ (c, s) :: post)) p = p.1 := by
        intro p _
        show (settleKey youtube _ p).1 = p.1
        unfold settleKey
        split
        · rfl
        · rfl
      rw [List.map_congr_left hfst]
      exact hcpre
  · rw [runMain, foldl_outcome_keys]
    rfl

/-- C4 witness: a concrete three-source run where the middle source's
channel is unknown to the API; its stored id survives and all three
sources are reported. -/
theorem nonfatal_fetch_isolated_w :
    ((([("c0", "x")] ++ ("c1", "b") :: [("c2", "y")]).map Prod.fst).Nodup)
    ∧ nonFatalFetchFailure ytNotFound "c1"
    ∧ (runMain ytNotFound (fun _ => SendOutcome.ok)
        ([("c0", "x")] ++ ("c1", "b") :: [("c2", "y")])).file.lookup "c1" = some "b"
    ∧ (runMain ytNotFound (fun _ => SendOutcome.ok)
        ([("c0", "x")] ++ ("c1", "b") :: [("c2", "y")])).outcomes.map Prod.fst
      = ([("c0", "x")] ++ ("c1", "b") :: [("c2", "y")]).map Prod.fst :=
  ⟨by decide, Or.inl ⟨{ items := [] }, rfl, rfl⟩,
    (nonfatal_fetch_isolated ytNotFound (fun _ => SendOutcome.ok) [("c0", "x")]
      [("c2", "y")] "c1" "b" (by decide) (Or.inl ⟨{ items := [] }, rfl, rfl⟩)).1,
    (nonfatal_fetch_isolated ytNotFound (fun _ => SendOutcome.ok) [("c0", "x")]
      [("c2", "y")] "c1" "b" (by decide) (Or.inl ⟨{ items := [] }, rfl, rfl⟩)).2⟩

/-- C6: a second run started from the final file of a first run, with
the external API returning the same latest item for every channel,
calls post_gmail for no source at all, whatever the SMTP oracles of the
two runs are (the first run's notify branches always persist their
update, so nothing is new the second time). -/
theorem second_run_no_mail (youtube : YoutubeApi) (outs1 outs2 : Nat → SendOutcome)
    (snapshot : Registry) :
    (runMain youtube outs2 (runMain youtube outs1 snapshot).file).attempts = [] := by
  have hfile : (runMain youtube outs1 snapshot).file
      = snapshot.map (settleKey youtube snapshot) := by
    rw [runMain, foldl_file, foldl_fileStep_eq_map]
    rfl
  have hset : ∀ e ∈ snapshot.map (settleKey youtube snapshot),
      notifyB youtube e = false := by
    intro e he
    obtain ⟨q, hq, rfl⟩ := List.mem_map.mp he
    by_cases ha : anyNotify youtube snapshot q.1 = true
    · unfold settleKey
      rw [if_pos ha, notifyB]
      simp
    · unfold settleKey
      rw [if_neg ha]
      have hfa : anyNotify youtube snapshot q.1 = false := Bool.eq_false_iff.mpr ha
      rw [anyNotify, List.any_eq_false] at hfa
      have hq1 := hfa q hq
      simpa using hq1
  rw [runMain, hfile]
  exact foldl_attempts_of_settled youtube outs2 _ _ hset

end YTG
